import Mathlib

/-!
Verification of the resilient RabbitMQ messaging client
(`RabbitMqClient` in `rabbit-mq/rabbit-mq-client.ts`, interface in
`rabbit-mq/interface.ts`).

The client is embedded shallowly:

* `ClientState` mirrors the mutable fields of the class, with opaque
  handles (`amqp.ChannelModel`, `amqp.Channel`, `NodeJS.Timeout`)
  represented by `Bool` liveness flags, the `Map` of handlers by an
  association list, and promises by `Bool` in-flight flags.  Two ghost
  counters (`pendingTimers`, `timersArmed`) record the `setTimeout`
  handles created by `scheduleReconnect`, which the source itself never
  stores.
* Each method body becomes a function on `ClientState`; the
  asynchronous entry points that can fail return `Except RmqError _`.
* `Ev`/`applyEvent` give the event-level transition system: transport
  lifecycle notifications, the public calls, and the firing of an armed
  reconnect timer.  Transport events are no-ops until a connection has
  ever been created, because the listeners that invoke the private
  handlers are only attached inside `connect()`.
* The consume callback (message dispatch) and the single-flight
  consumer setup get their own finer-grained models further below.
-/

namespace RabbitMq

/-- `maxReconnectAttempts` field of `RabbitMqClient`. -/
def maxReconnectAttempts : Nat := 10

/-- `reconnectDelay` field (base backoff delay, ms). -/
def reconnectDelay : Nat := 5000

/-- `maxReconnectDelay` field (backoff ceiling, ms). -/
def maxReconnectDelay : Nat := 30000

/-- `heartbeatIntervalMs` field (ms). -/
def heartbeatIntervalMs : Nat := 25000

/-- The queue name handed back by `assertQueue` (broker-assigned when the
configured name is empty); its concrete value is irrelevant, only that it
is assigned at most once. -/
def brokerQueue : String := "amq.gen-1"

/-- The broker-assigned consumer tag returned by `channel.consume`. -/
def brokerTag : String := "ctag-1"

/-- Mutable state of a `RabbitMqClient` instance.  Handles are `Bool`
("non-null"), handlers are ids in an association list (`Map` insertion
order preserved), and the two trailing fields are ghost instrumentation
counting reconnect timers armed by `scheduleReconnect`. -/
structure ClientState where
  connection : Bool
  channel : Bool
  eventHandlers : List (String × List Nat)
  queueName : Option String
  consumerTag : Option String
  consumerSetupActive : Bool
  isInitialized : Bool
  isReconnecting : Bool
  reconnectAttempts : Nat
  connectionClosedByServer : Bool
  heartbeat : Bool
  everConnected : Bool
  pendingTimers : Nat
  timersArmed : Nat
deriving DecidableEq

/-- A freshly constructed client: every handle null, every flag false. -/
def initialState : ClientState :=
  ⟨false, false, [], none, none, false, false, false, 0, false, false, false, 0, 0⟩

/-- `startHeartbeat()`: (re)arms the interval timer. -/
def startHeartbeat (s : ClientState) : ClientState := { s with heartbeat := true }

/-- `stopHeartbeat()`: clears the interval timer if present. -/
def stopHeartbeat (s : ClientState) : ClientState := { s with heartbeat := false }

/-- `scheduleReconnect()`.  Returns the successor state together with the
delay of the timer it armed (`none` when no timer was armed: already
reconnecting, or attempt budget exhausted).  The armed `setTimeout` is
recorded in the ghost counters; the source keeps no handle to it. -/
def scheduleReconnect (s : ClientState) : ClientState × Option Nat :=
  if s.isReconnecting then (s, none)
  else
    let s1 := { s with isReconnecting := true, reconnectAttempts := s.reconnectAttempts + 1 }
    if s1.reconnectAttempts > maxReconnectAttempts then
      ({ s1 with isReconnecting := false }, none)
    else
      let delay := min (reconnectDelay * 2 ^ (s1.reconnectAttempts - 1)) maxReconnectDelay
      ({ s1 with pendingTimers := s1.pendingTimers + 1, timersArmed := s1.timersArmed + 1 },
        some delay)

/-- Net effect of a successful `connect()`: fresh connection and channel,
exchange asserted, reconnect state reset, heartbeat started.
`connectionClosedByServer` is reset at entry and the new connection has
emitted no events yet. -/
def connectOk (s : ClientState) : ClientState :=
  { s with connectionClosedByServer := false, connection := true, channel := true,
           isReconnecting := false, reconnectAttempts := 0, heartbeat := true,
           everConnected := true }

/-- Net effect of a failing `connect()` (connection refused at
`amqp.connect`): the old handles were nulled before the attempt and the
error is rethrown. -/
def connectFail (s : ClientState) : ClientState :=
  { s with connectionClosedByServer := false, connection := false, channel := false }

/-- `handleConnectionError()`: stop heartbeat, then schedule a reconnect
unless one is already in progress.  Note: the channel handle is left as
is. -/
def handleConnectionError (s : ClientState) : ClientState :=
  let s1 := stopHeartbeat s
  if s1.isReconnecting then s1 else (scheduleReconnect s1).1

/-- `handleConnectionClose()`: stop heartbeat, drop channel, consumer tag
and setup promise, then schedule a reconnect unless one is in
progress. -/
def handleConnectionClose (s : ClientState) : ClientState :=
  let s1 := { stopHeartbeat s with
              channel := false, consumerTag := none, consumerSetupActive := false }
  if s1.isReconnecting then s1 else (scheduleReconnect s1).1

/-- `handleChannelError()`: drop channel, consumer tag and setup promise;
schedule a reconnect if the connection is still up and none is in
progress.  The heartbeat is not touched. -/
def handleChannelError (s : ClientState) : ClientState :=
  let s1 := { s with channel := false, consumerTag := none, consumerSetupActive := false }
  if s1.connection ∧ ¬s1.isReconnecting then (scheduleReconnect s1).1 else s1

/-- `handleChannelClose()`: same body as `handleChannelError`. -/
def handleChannelClose (s : ClientState) : ClientState :=
  let s1 := { s with channel := false, consumerTag := none, consumerSetupActive := false }
  if s1.connection ∧ ¬s1.isReconnecting then (scheduleReconnect s1).1 else s1

/-- Net effect of the async block inside `setupConsumer()` completing
successfully: join an in-flight setup (no state change observed here),
skip when a consumer already exists, otherwise assert the queue (naming
it only if not yet named), start the consumer, and finish with the
setup promise cleared. -/
def setupConsumerOk (s : ClientState) : ClientState :=
  if s.consumerSetupActive then s
  else if s.consumerTag.isSome then s
  else { s with queueName := some (s.queueName.getD brokerQueue),
                consumerTag := some brokerTag,
                consumerSetupActive := false }

/-- The `setTimeout` callback armed by `scheduleReconnect` firing.
`ok` selects the happy path (`connect()` and, when handlers exist, the
consumer re-setup succeed) versus the failure path, whose `catch`
recurses into `scheduleReconnect`.  A no-op when no timer is pending. -/
def reconnectTimerFire (s : ClientState) (ok : Bool) : ClientState :=
  if s.pendingTimers = 0 then s
  else
    let s1 := { s with pendingTimers := s.pendingTimers - 1 }
    if ok then
      let s2 := connectOk s1
      if s2.eventHandlers.isEmpty then s2 else setupConsumerOk s2
    else (scheduleReconnect (connectFail s1)).1

/-- `init()`: no-op when already initialized, otherwise one successful
`connect()` followed by setting the initialized flag. -/
def initCall (s : ClientState) : ClientState :=
  if s.isInitialized then s else { connectOk s with isInitialized := true }

/-- `close()`: clear the reconnecting flag, stop the heartbeat, cancel
the consumer (only when both tag and channel are present), close and
null the channel, close and null the connection (only when not already
closed by the server), and mark uninitialized.  Nothing cancels a
pending reconnect timer. -/
def close (s : ClientState) : ClientState :=
  let s1 := stopHeartbeat { s with isReconnecting := false }
  let s2 := if s1.consumerTag.isSome ∧ s1.channel then { s1 with consumerTag := none } else s1
  let s3 := { s2 with channel := false }
  let s4 := if s3.connection ∧ ¬s3.connectionClosedByServer
            then { s3 with connection := false } else s3
  { s4 with isInitialized := false }

/-- Error taxonomy of the guarded public operations. -/
inductive RmqError where
  | notInitialized
  | reconnecting
  | channelUnavailable
deriving DecidableEq

/-- `ensureConnection()`: when a handle is missing, fail if never
initialized, fail if a reconnection is in progress, otherwise lazily
`connect()`.  The returned flag records whether `connect()` was
invoked. -/
def ensureConnection (s : ClientState) : Except RmqError (ClientState × Bool) :=
  if s.connection = false ∨ s.channel = false then
    if s.isInitialized = false then .error .notInitialized
    else if s.isReconnecting then .error .reconnecting
    else .ok (connectOk s, true)
  else .ok (s, false)

/-- The outbound event envelope: the routing key is its `name` field. -/
structure RabbitMqEventBase where
  name : String
deriving DecidableEq

/-- Observable effect of a successful `channel.publish`. -/
structure PublishAction where
  exchange : String
  routingKey : String
deriving DecidableEq

/-- `publishIntegrationEvent(event)`: guard through `ensureConnection`,
re-check the channel, then publish to the exchange with the event's
`name` as routing key. -/
def publishIntegrationEvent (s : ClientState) (exchange : String) (ev : RabbitMqEventBase) :
    Except RmqError (ClientState × PublishAction) :=
  match ensureConnection s with
  | .error e => .error e
  | .ok (s1, _) =>
    if s1.channel = false then .error .channelUnavailable
    else .ok (s1, ⟨exchange, ev.name⟩)

/-- `Map.set` on the handler registry: append the handler to the key's
ordered list, creating the entry (at the end, as a JS `Map` does) when
absent. -/
def addHandler (m : List (String × List Nat)) (key : String) (h : Nat) :
    List (String × List Nat) :=
  match m with
  | [] => [(key, [h])]
  | (k, hs) :: rest =>
    if k = key then (k, hs ++ [h]) :: rest else (k, hs) :: addHandler rest key h

/-- `registerEventHandler(routingKey, handler)`: guard through
`ensureConnection`, append the handler, then run the consumer setup
(modelled by its successful completion) and bind the key. -/
def registerEventHandler (s : ClientState) (key : String) (h : Nat) :
    Except RmqError ClientState :=
  match ensureConnection s with
  | .error e => .error e
  | .ok (s1, _) =>
    let s2 := { s1 with eventHandlers := addHandler s1.eventHandlers key h }
    .ok (setupConsumerOk s2)

/-- Events driving the client's lifecycle: the public calls, the
transport notifications, and the firing of an armed reconnect timer. -/
inductive Ev where
  | initOk
  | connectionErrorEvt
  | connectionCloseEvt
  | channelErrorEvt
  | channelCloseEvt
  | closeCall
  | reconnectFire (ok : Bool)
  | publishEvt
  | registerEvt (key : String) (h : Nat)
deriving DecidableEq

/-- One transition.  The transport listeners exist only once a
connection object has been created, so transport events are no-ops
before `everConnected`; the connection-level listeners additionally set
`connectionClosedByServer` before delegating. -/
def applyEvent (s : ClientState) : Ev → ClientState
  | .initOk => initCall s
  | .connectionErrorEvt =>
    if s.everConnected then handleConnectionError { s with connectionClosedByServer := true }
    else s
  | .connectionCloseEvt =>
    if s.everConnected then handleConnectionClose { s with connectionClosedByServer := true }
    else s
  | .channelErrorEvt => if s.everConnected then handleChannelError s else s
  | .channelCloseEvt => if s.everConnected then handleChannelClose s else s
  | .closeCall => close s
  | .reconnectFire ok => reconnectTimerFire s ok
  | .publishEvt =>
    match publishIntegrationEvent s "ex" ⟨"ev"⟩ with
    | .ok (s1, _) => s1
    | .error _ => s
  | .registerEvt key h =>
    match registerEventHandler s key h with
    | .ok s1 => s1
    | .error _ => s

/-- Run a trace of events. -/
def run (s : ClientState) (tr : List Ev) : ClientState := tr.foldl applyEvent s

/-- Events whose handling may contain a successful `connect()` (and so
may reset the reconnect attempt counter). -/
def mayConnect : Ev → Bool
  | .initOk => true
  | .reconnectFire ok => ok
  | .publishEvt => true
  | .registerEvt _ _ => true
  | _ => false

/-- The claimed heartbeat invariant: timer armed iff channel handle
alive. -/
def heartbeatChannelInv (s : ClientState) : Prop := s.heartbeat = s.channel

/-! ### Message dispatch (the `channel.consume` callback)

The callback's whole body sits in one `try` block: extract the routing
key, `JSON.parse` the body (modelled by an `Option`-valued parse
result), collect the handlers registered for the key (empty list when
none), await them all via `Promise.all`, and `ack`; the `catch` block
`nack`s with `allUpTo = false, requeue = false`.  Handlers are modelled
by their settled results (`Except`-valued functions on the parsed
content). -/

/-- Acknowledgment decision taken by the consume callback. -/
inductive MsgOutcome where
  | ack
  | nackNoRequeue
deriving DecidableEq

/-- Whether an awaited handler promise fulfilled. -/
def handlerOk {α : Type} (content : α) (h : α → Except String Unit) : Bool :=
  match h content with
  | .ok _ => true
  | .error _ => false

/-- The consume callback: `none` for `parsed` is a `JSON.parse` throw,
caught like any handler rejection.  `Promise.all` fulfills exactly when
every handler fulfills (vacuously for an empty list). -/
def dispatchMessage {α : Type} (registry : List (String × List (α → Except String Unit)))
    (routingKey : String) (parsed : Option α) : MsgOutcome :=
  match parsed with
  | none => .nackNoRequeue
  | some content =>
    let handlers := (registry.lookup routingKey).getD []
    if handlers.all (handlerOk content) then .ack else .nackNoRequeue

/-! ### Public API surface

Transcribed member lists: the methods of `IRabbitMqClient`
(`rabbit-mq/interface.ts`) and the non-`private` methods of
`RabbitMqClient`. -/

/-- Methods declared by the `IRabbitMqClient` interface. -/
def interfaceMethods : List String :=
  ["init", "publishIntegrationEvent", "registerEventHandler", "handleIntegrationEvent"]

/-- Public (non-`private`) methods of the `RabbitMqClient` class. -/
def clientPublicMethods : List String :=
  ["init", "publishIntegrationEvent", "registerEventHandler", "handleIntegrationEvent",
   "close"]

/-! Concrete sample inputs used to exercise the theorems. -/

/-- A connected, initialized client whose reconnect attempt counter has
reached the maximum. -/
def exhaustedState : ClientState :=
  { initialState with connection := true, channel := true, isInitialized := true,
                      everConnected := true, reconnectAttempts := 10 }

/-- A trace of reconnect-path events containing no successful connect. -/
def noConnectTrace : List Ev :=
  [Ev.channelCloseEvt, Ev.connectionErrorEvt, Ev.reconnectFire false, Ev.closeCall]

/-- An initialized, connected client at rest. -/
def connectedSample : ClientState := run initialState [Ev.initOk]

/-- A handler whose promise fulfills. -/
def okHandler : Nat → Except String Unit := fun _ => Except.ok ()

/-- A handler whose promise rejects. -/
def failHandler : Nat → Except String Unit := fun _ => Except.error "handler failed"

/-- Two handlers registered on the same routing key, the second of which
throws. -/
def sampleRegistry : List (String × List (Nat → Except String Unit)) :=
  [("order.created", [okHandler, failHandler])]

end RabbitMq

/-! ### Single-flight consumer setup under interleaving

A fine-grained model of concurrent `registerEventHandler` calls.  The
JavaScript event loop runs the code between two `await`s atomically, so
each task is a list of atomic actions and a scheduler interleaves the
tasks in any order.  A `registerEventHandler` call is

  `ensureYield` (the `await this.ensureConnection()` suspension, a no-op
  when connection and channel are up), then `enter` — the synchronous
  segment that appends the handler to the map and runs `setupConsumer()`
  up to its first suspension: return the in-flight promise if there is
  one, return if a consumer tag exists, otherwise publish a fresh setup
  promise and spawn its async block — then `regBind` (the final
  `bindQueue`).

The spawned setup block is `setupEnsure` (its own `ensureConnection`),
`setupQueue` (assert/name the queue when unnamed), `setupConsume` (the
`channel.consume` call, made only when no consumer tag exists; when one
exists the whole `if` block including the tag assignment is skipped),
`setupTag` (store the returned tag), `setupBind` (re-bind all keys), and
`setupFinish` (the `finally` clearing the setup promise).  `consumeCalls`
counts `channel.consume` invocations. -/

namespace SingleFlight

open RabbitMq (addHandler)

/-- Shared fields touched by the interleaved tasks: the single-flight
promise, the consumer tag, the queue name, the handler map, and the
ghost count of `channel.consume` calls. -/
structure SetupSt where
  promiseActive : Bool
  consumerTag : Bool
  queueNamed : Bool
  handlers : List (String × List Nat)
  consumeCalls : Nat
deriving DecidableEq

/-- Atomic actions (code between `await` suspension points). -/
inductive Act where
  | ensureYield
  | enter (key : String) (h : Nat)
  | regBind
  | setupEnsure
  | setupQueue
  | setupConsume
  | setupTag
  | setupBind
  | setupFinish
deriving DecidableEq

/-- The async block of `setupConsumer`, as a task. -/
def setupProg : List Act :=
  [Act.setupEnsure, Act.setupQueue, Act.setupConsume, Act.setupTag, Act.setupBind,
   Act.setupFinish]

/-- The `registerEventHandler` body, as a task. -/
def regProg (key : String) (h : Nat) : List Act :=
  [Act.ensureYield, Act.enter key h, Act.regBind]

/-- Execute one atomic action: next shared state, the executing task's
remaining actions (the skip branch of `setupConsume` drops the tag
assignment), and any spawned task. -/
def stepAct (st : SetupSt) (a : Act) (rest : List Act) :
    SetupSt × List Act × List (List Act) :=
  match a with
  | .ensureYield => (st, rest, [])
  | .enter key h =>
    let st1 := { st with handlers := addHandler st.handlers key h }
    if st1.promiseActive then (st1, rest, [])
    else if st1.consumerTag then (st1, rest, [])
    else ({ st1 with promiseActive := true }, rest, [setupProg])
  | .regBind => (st, rest, [])
  | .setupEnsure => (st, rest, [])
  | .setupQueue =>
    if st.queueNamed then (st, rest, []) else ({ st with queueNamed := true }, rest, [])
  | .setupConsume =>
    if st.consumerTag then (st, rest.drop 1, [])
    else ({ st with consumeCalls := st.consumeCalls + 1 }, rest, [])
  | .setupTag => ({ st with consumerTag := true }, rest, [])
  | .setupBind => (st, rest, [])
  | .setupFinish => ({ st with promiseActive := false }, rest, [])

/-- A configuration: shared state plus the pool of tasks (finished tasks
stay as `[]`; spawned tasks are appended). -/
def Config := SetupSt × List (List Act)

instance : DecidableEq Config := by
  unfold Config
  infer_instance

/-- Let task `i` execute its next atomic action. -/
def stepAt (c : Config) (i : Nat) : Option Config :=
  match c.2[i]? with
  | none => none
  | some [] => none
  | some (a :: rest) =>
    let r := stepAct c.1 a rest
    some (r.1, (c.2.set i r.2.1) ++ r.2.2)

/-- Run a schedule (a list of task indices). -/
def runSched (c : Config) : List Nat → Option Config
  | [] => some c
  | i :: is =>
    match stepAt c i with
    | none => none
    | some c' => runSched c' is

/-- All tasks have run to completion. -/
def allDone (c : Config) : Bool := c.2.all List.isEmpty

/-- Starting configuration: no consumer, no setup in flight, one
`registerEventHandler` task per requested (key, handler) pair. -/
def initConfig (ks : List (String × Nat)) : Config :=
  (⟨false, false, false, [], 0⟩, ks.map fun kh => regProg kh.1 kh.2)

/-- The suffixes of a `registerEventHandler` task (including the
finished task `[]`). -/
def isRegSuffixP (t : List Act) : Prop :=
  t = [] ∨ t = [Act.regBind] ∨ (∃ k h, t = [Act.enter k h, Act.regBind])
  ∨ (∃ k h, t = [Act.ensureYield, Act.enter k h, Act.regBind])

/-- Task `t` still has its `enter` action pending. -/
def enterPending (t : List Act) : Prop := ∃ k h, Act.enter k h ∈ t

/-- Program-counter cases of the unique in-flight setup task, tied to
the shared state: before the `channel.consume` call no call has been
counted and no consumer tag exists; between the call and the tag
assignment exactly one call is counted; after the assignment the tag
exists. -/
def SetupSub (st : SetupSt) (S : List Act) : Prop :=
  ((S = setupProg
    ∨ S = [Act.setupQueue, Act.setupConsume, Act.setupTag, Act.setupBind, Act.setupFinish]
    ∨ S = [Act.setupConsume, Act.setupTag, Act.setupBind, Act.setupFinish])
    ∧ st.consumerTag = false ∧ st.consumeCalls = 0)
  ∨ (S = [Act.setupTag, Act.setupBind, Act.setupFinish]
      ∧ st.consumerTag = false ∧ st.consumeCalls = 1)
  ∨ ((S = [Act.setupBind, Act.setupFinish] ∨ S = [Act.setupFinish])
      ∧ st.consumerTag = true ∧ st.consumeCalls = 1)

/-- No setup has been spawned yet: the single-flight promise is free, no
consumer exists, no consume call happened, every pool entry is a
register-task suffix, and some task still has its `enter` pending. -/
def PhaseA (c : Config) : Prop :=
  c.1.promiseActive = false ∧ c.1.consumerTag = false ∧ c.1.consumeCalls = 0
  ∧ (∀ t ∈ c.2, isRegSuffixP t) ∧ (∃ t ∈ c.2, enterPending t)

/-- Exactly one setup task is in flight and holds the single-flight
promise; every other pool entry is a register-task suffix. -/
def PhaseB (c : Config) : Prop :=
  c.1.promiseActive = true
  ∧ ∃ (k : Nat) (S : List Act), c.2[k]? = some S ∧ SetupSub c.1 S
      ∧ ∀ (j : Nat) (T : List Act), j ≠ k → c.2[j]? = some T → isRegSuffixP T

/-- The setup completed: the consumer tag exists, exactly one consume
call was made, the promise is free again, and only register-task
suffixes remain. -/
def PhaseC (c : Config) : Prop :=
  c.1.promiseActive = false ∧ c.1.consumerTag = true ∧ c.1.consumeCalls = 1
  ∧ (∀ t ∈ c.2, isRegSuffixP t)

/-- The single-flight invariant preserved by every scheduler step. -/
def StInv (c : Config) : Prop := PhaseA c ∨ PhaseB c ∨ PhaseC c

/-- Ten distinct routing keys with their handlers. -/
def ksSample : List (String × Nat) :=
  [("k0", 0), ("k1", 1), ("k2", 2), ("k3", 3), ("k4", 4),
   ("k5", 5), ("k6", 6), ("k7", 7), ("k8", 8), ("k9", 9)]

/-- A complete schedule of the ten register tasks and the setup task
they spawn (appended at index 10 when task 0 runs its `enter`). -/
def schedSample : List Nat :=
  [0, 0, 0, 1, 1, 1, 2, 2, 2, 3, 3, 3, 4, 4, 4,
   5, 5, 5, 6, 6, 6, 7, 7, 7, 8, 8, 8, 9, 9, 9,
   10, 10, 10, 10, 10, 10]

/-- The configuration the sample schedule ends in. -/
def cFinSample : Config :=
  (runSched (initConfig ksSample) schedSample).getD (initConfig ksSample)

end SingleFlight

namespace RabbitMq

/-- Fields of the state that `scheduleReconnect` never writes (it only
touches `isReconnecting`, `reconnectAttempts` and the timer ghost
counters). -/
theorem scheduleReconnect_frame (s : ClientState) :
    (scheduleReconnect s).1.heartbeat = s.heartbeat
    ∧ (scheduleReconnect s).1.channel = s.channel
    ∧ (scheduleReconnect s).1.connection = s.connection
    ∧ (scheduleReconnect s).1.eventHandlers = s.eventHandlers
    ∧ (scheduleReconnect s).1.queueName = s.queueName
    ∧ (scheduleReconnect s).1.consumerTag = s.consumerTag
    ∧ (scheduleReconnect s).1.consumerSetupActive = s.consumerSetupActive
    ∧ (scheduleReconnect s).1.isInitialized = s.isInitialized := by
  by_cases h1 : s.isReconnecting
  · simp [scheduleReconnect, h1]
  · by_cases h2 : s.reconnectAttempts + 1 > maxReconnectAttempts
    · simp [scheduleReconnect, h1, h2]
    · simp [scheduleReconnect, h1, h2]

/-- With the attempt budget already used up, `scheduleReconnect` arms no
timer, leaves the armed-timer count unchanged, and keeps the counter at
or above the budget. -/
theorem scheduleReconnect_exhausted (s : ClientState)
    (h : maxReconnectAttempts ≤ s.reconnectAttempts) :
    (scheduleReconnect s).2 = none
    ∧ (scheduleReconnect s).1.timersArmed = s.timersArmed
    ∧ maxReconnectAttempts ≤ (scheduleReconnect s).1.reconnectAttempts := by
  by_cases h1 : s.isReconnecting
  · simpa [scheduleReconnect, h1] using h
  · have hgt : s.reconnectAttempts + 1 > maxReconnectAttempts := by
      unfold maxReconnectAttempts at h ⊢
      omega
    simp [scheduleReconnect, h1, hgt]
    unfold maxReconnectAttempts at h ⊢
    omega

/-- `close()` never touches the timer counters, the attempt counter, the
registry or the queue name; it always ends with heartbeat stopped,
channel nulled, reconnecting flag cleared and the client marked
uninitialized. -/
theorem close_frame (s : ClientState) :
    (close s).timersArmed = s.timersArmed
    ∧ (close s).reconnectAttempts = s.reconnectAttempts
    ∧ (close s).pendingTimers = s.pendingTimers
    ∧ (close s).eventHandlers = s.eventHandlers
    ∧ (close s).queueName = s.queueName
    ∧ (close s).heartbeat = false
    ∧ (close s).channel = false
    ∧ (close s).isInitialized = false
    ∧ (close s).isReconnecting = false := by
  by_cases h2 : s.consumerTag.isSome = true <;>
    by_cases h3 : s.channel = true <;>
      by_cases h4 : s.connection = true <;>
        by_cases h5 : s.connectionClosedByServer = true <;>
          simp [close, stopHeartbeat, h2, h3, h4, h5]

/-- `handleConnectionError` with the attempt budget exhausted. -/
theorem handleConnectionError_exhausted (s : ClientState)
    (h : maxReconnectAttempts ≤ s.reconnectAttempts) :
    (handleConnectionError s).timersArmed = s.timersArmed
    ∧ maxReconnectAttempts ≤ (handleConnectionError s).reconnectAttempts := by
  by_cases h1 : s.isReconnecting = true
  · simp [handleConnectionError, stopHeartbeat, h1, h]
  · simp [handleConnectionError, stopHeartbeat, h1]
    have hx := scheduleReconnect_exhausted
      { s with isReconnecting := false, heartbeat := false } h
    exact ⟨hx.2.1, hx.2.2⟩

/-- `handleConnectionClose` with the attempt budget exhausted. -/
theorem handleConnectionClose_exhausted (s : ClientState)
    (h : maxReconnectAttempts ≤ s.reconnectAttempts) :
    (handleConnectionClose s).timersArmed = s.timersArmed
    ∧ maxReconnectAttempts ≤ (handleConnectionClose s).reconnectAttempts := by
  by_cases h1 : s.isReconnecting = true
  · simp [handleConnectionClose, stopHeartbeat, h1, h]
  · simp [handleConnectionClose, stopHeartbeat, h1]
    have hx := scheduleReconnect_exhausted
      { s with isReconnecting := false, heartbeat := false, channel := false,
               consumerTag := none, consumerSetupActive := false } h
    exact ⟨hx.2.1, hx.2.2⟩

/-- `handleChannelError` with the attempt budget exhausted. -/
theorem handleChannelError_exhausted (s : ClientState)
    (h : maxReconnectAttempts ≤ s.reconnectAttempts) :
    (handleChannelError s).timersArmed = s.timersArmed
    ∧ maxReconnectAttempts ≤ (handleChannelError s).reconnectAttempts := by
  by_cases hc : s.connection = true
  · by_cases h1 : s.isReconnecting = true
    · simp [handleChannelError, hc, h1, h]
    · simp [handleChannelError, hc, h1]
      have hx := scheduleReconnect_exhausted
        { s with connection := true, channel := false, consumerTag := none,
                 consumerSetupActive := false, isReconnecting := false } h
      exact ⟨hx.2.1, hx.2.2⟩
  · simp [handleChannelError, hc, h]

/-- `handleChannelClose` with the attempt budget exhausted. -/
theorem handleChannelClose_exhausted (s : ClientState)
    (h : maxReconnectAttempts ≤ s.reconnectAttempts) :
    (handleChannelClose s).timersArmed = s.timersArmed
    ∧ maxReconnectAttempts ≤ (handleChannelClose s).reconnectAttempts := by
  by_cases hc : s.connection = true
  · by_cases h1 : s.isReconnecting = true
    · simp [handleChannelClose, hc, h1, h]
    · simp [handleChannelClose, hc, h1]
      have hx := scheduleReconnect_exhausted
        { s with connection := true, channel := false, consumerTag := none,
                 consumerSetupActive := false, isReconnecting := false } h
      exact ⟨hx.2.1, hx.2.2⟩
  · simp [handleChannelClose, hc, h]

/-- A failing reconnect-timer fire with the attempt budget exhausted. -/
theorem reconnectFire_false_exhausted (s : ClientState)
    (h : maxReconnectAttempts ≤ s.reconnectAttempts) :
    (reconnectTimerFire s false).timersArmed = s.timersArmed
    ∧ maxReconnectAttempts ≤ (reconnectTimerFire s false).reconnectAttempts := by
  by_cases hp : s.pendingTimers = 0
  · simp [reconnectTimerFire, hp, h]
  · simp [reconnectTimerFire, hp, connectFail]
    have hx := scheduleReconnect_exhausted
      { s with connection := false, channel := false, connectionClosedByServer := false,
               pendingTimers := s.pendingTimers - 1 } h
    exact ⟨hx.2.1, hx.2.2⟩

/-- Once the attempt counter is at or above the budget, any event whose
handling cannot contain a successful `connect()` arms no new timer and
keeps the counter at or above the budget. -/
theorem applyEvent_exhausted (s : ClientState) (e : Ev)
    (hm : mayConnect e = false) (h : maxReconnectAttempts ≤ s.reconnectAttempts) :
    (applyEvent s e).timersArmed = s.timersArmed
    ∧ maxReconnectAttempts ≤ (applyEvent s e).reconnectAttempts := by
  cases e with
  | initOk => simp [mayConnect] at hm
  | publishEvt => simp [mayConnect] at hm
  | registerEvt key hd => simp [mayConnect] at hm
  | connectionErrorEvt =>
    by_cases hev : s.everConnected = true
    · simp only [applyEvent, hev, if_true]
      have hx := handleConnectionError_exhausted
        { s with connectionClosedByServer := true, everConnected := true } h
      exact ⟨hx.1, hx.2⟩
    · simp [applyEvent, hev, h]
  | connectionCloseEvt =>
    by_cases hev : s.everConnected = true
    · simp only [applyEvent, hev, if_true]
      have hx := handleConnectionClose_exhausted
        { s with connectionClosedByServer := true, everConnected := true } h
      exact ⟨hx.1, hx.2⟩
    · simp [applyEvent, hev, h]
  | channelErrorEvt =>
    by_cases hev : s.everConnected = true
    · simp only [applyEvent, hev, if_true]
      exact ⟨(handleChannelError_exhausted s h).1, (handleChannelError_exhausted s h).2⟩
    · simp [applyEvent, hev, h]
  | channelCloseEvt =>
    by_cases hev : s.everConnected = true
    · simp only [applyEvent, hev, if_true]
      exact ⟨(handleChannelClose_exhausted s h).1, (handleChannelClose_exhausted s h).2⟩
    · simp [applyEvent, hev, h]
  | closeCall =>
    have hx := close_frame s
    exact ⟨hx.1, hx.2.1 ▸ h⟩
  | reconnectFire ok =>
    cases ok with
    | true => simp [mayConnect] at hm
    | false => exact ⟨(reconnectFire_false_exhausted _ h).1, (reconnectFire_false_exhausted _ h).2⟩

/-- Trace form of `applyEvent_exhausted`. -/
theorem run_exhausted (tr : List Ev) (s : ClientState)
    (h : maxReconnectAttempts ≤ s.reconnectAttempts)
    (hm : ∀ e ∈ tr, mayConnect e = false) :
    (run s tr).timersArmed = s.timersArmed
    ∧ maxReconnectAttempts ≤ (run s tr).reconnectAttempts := by
  induction tr generalizing s with
  | nil => exact ⟨rfl, h⟩
  | cons e tl ih =>
    have he : mayConnect e = false := hm e (by simp)
    have step := applyEvent_exhausted s e he h
    have rest := ih (applyEvent s e) step.2 (fun e' he' => hm e' (by simp [he']))
    refine ⟨?_, ?_⟩
    · show (run (applyEvent s e) tl).timersArmed = s.timersArmed
      rw [rest.1, step.1]
    · exact rest.2

end RabbitMq

namespace RabbitMq

/-- C1 (code defect exhibited): `scheduleReconnect` stores no handle to
the `setTimeout` it arms and `close()` cancels nothing, so a reconnect
timer armed before a deliberate shutdown survives `close()` and, when it
fires, invokes `connect()`, reviving connection, channel and heartbeat of
the closed client.  Trace: `init()` succeeds; a channel `close` event
arms the first reconnect timer; `close()` returns with the timer still
pending; the timer fires and connects. -/
theorem close_leaves_reconnect_timer_pending :
    (run initialState [Ev.initOk, Ev.channelCloseEvt, Ev.closeCall]).pendingTimers = 1
    ∧ (run initialState [Ev.initOk, Ev.channelCloseEvt, Ev.closeCall]).connection = false
    ∧ (run initialState [Ev.initOk, Ev.channelCloseEvt, Ev.closeCall]).isInitialized = false
    ∧ (run initialState
        [Ev.initOk, Ev.channelCloseEvt, Ev.closeCall, Ev.reconnectFire true]).connection = true
    ∧ (run initialState
        [Ev.initOk, Ev.channelCloseEvt, Ev.closeCall, Ev.reconnectFire true]).channel = true
    ∧ (run initialState
        [Ev.initOk, Ev.channelCloseEvt, Ev.closeCall, Ev.reconnectFire true]).heartbeat = true
    ∧ (run initialState
        [Ev.initOk, Ev.channelCloseEvt, Ev.closeCall, Ev.reconnectFire true]).isInitialized
      = false := by
  decide

/-- C2: for reconnect attempt `n` with `1 ≤ n ≤ 10`, `scheduleReconnect`
arms its one-shot timer with delay `min(5000·2^(n-1), 30000)` ms, and the
delays for attempts 1..5 are 5000, 10000, 20000, 30000, 30000 ms. -/
theorem scheduleReconnect_backoff (s : ClientState) (n : Nat)
    (hrec : s.isReconnecting = false) (hn : s.reconnectAttempts + 1 = n) (hle : n ≤ 10) :
    (scheduleReconnect s).2
      = some (min (reconnectDelay * 2 ^ (n - 1)) maxReconnectDelay)
    ∧ [1, 2, 3, 4, 5].map
        (fun k => (scheduleReconnect { initialState with reconnectAttempts := k - 1 }).2)
      = [some 5000, some 10000, some 20000, some 30000, some 30000] := by
  constructor
  · have hgt : ¬ (maxReconnectAttempts < n) := by
      unfold maxReconnectAttempts
      omega
    simp [scheduleReconnect, hrec, hgt, hn]
  · decide

/-- Witness for `scheduleReconnect_backoff` at attempt 3. -/
theorem scheduleReconnect_backoff_witness :
    ({ initialState with reconnectAttempts := 2 } : ClientState).isReconnecting = false
    ∧ (scheduleReconnect { initialState with reconnectAttempts := 2 }).2
        = some (min (reconnectDelay * 2 ^ (3 - 1)) maxReconnectDelay) :=
  ⟨rfl, (scheduleReconnect_backoff { initialState with reconnectAttempts := 2 } 3 rfl rfl
      (by decide)).1⟩

/-- C3: once the attempt counter has reached the maximum,
`scheduleReconnect` arms no timer, and along any subsequent trace of
transport error/close events, failed timer fires and `close()` calls —
anything not containing a successful connect — no reconnect timer is ever
armed and the counter never drops back below the maximum (it is reset
only by a successful `connect()`). -/
theorem reconnect_budget_terminal (s : ClientState) (tr : List Ev)
    (h : maxReconnectAttempts ≤ s.reconnectAttempts)
    (hm : ∀ e ∈ tr, mayConnect e = false) :
    (scheduleReconnect s).2 = none
    ∧ (run s tr).timersArmed = s.timersArmed
    ∧ maxReconnectAttempts ≤ (run s tr).reconnectAttempts :=
  ⟨(scheduleReconnect_exhausted s h).1, (run_exhausted tr s h hm).1,
   (run_exhausted tr s h hm).2⟩

/-- Witness for `reconnect_budget_terminal` on a concrete exhausted state
and a concrete connect-free trace. -/
theorem reconnect_budget_terminal_witness :
    maxReconnectAttempts ≤ exhaustedState.reconnectAttempts
    ∧ (∀ e ∈ noConnectTrace, mayConnect e = false)
    ∧ (scheduleReconnect exhaustedState).2 = none
    ∧ (run exhaustedState noConnectTrace).timersArmed = exhaustedState.timersArmed
    ∧ maxReconnectAttempts ≤ (run exhaustedState noConnectTrace).reconnectAttempts :=
  ⟨by decide, by decide,
   (reconnect_budget_terminal exhaustedState noConnectTrace (by decide) (by decide)).1,
   (reconnect_budget_terminal exhaustedState noConnectTrace (by decide) (by decide)).2.1,
   (reconnect_budget_terminal exhaustedState noConnectTrace (by decide) (by decide)).2.2⟩

end RabbitMq

namespace RabbitMq

/-- C5: the consume callback awaits all handlers registered for the
message's routing key together: with no entry for the key the message is
still acked (nothing to fail on); if every handler fulfills the message
is acked; if any single handler rejects the message is nacked without
requeue, regardless of the other handlers' results. -/
theorem dispatch_ack_nack_policy {α : Type}
    (registry : List (String × List (α → Except String Unit))) (key : String) (content : α) :
    (registry.lookup key = none → dispatchMessage registry key (some content) = .ack)
    ∧ ((∀ hd ∈ (registry.lookup key).getD [], handlerOk content hd = true) →
        dispatchMessage registry key (some content) = .ack)
    ∧ (∀ hd ∈ (registry.lookup key).getD [], handlerOk content hd = false →
        dispatchMessage registry key (some content) = .nackNoRequeue) := by
  refine ⟨?_, ?_, ?_⟩
  · intro hnone
    simp [dispatchMessage, hnone]
  · intro hall
    have hx : ((registry.lookup key).getD []).all (handlerOk content) = true :=
      List.all_eq_true.mpr hall
    simp [dispatchMessage, hx]
  · intro hd hmem hfail
    have hx : ((registry.lookup key).getD []).all (handlerOk content) ≠ true := by
      intro hcon
      have := List.all_eq_true.mp hcon hd hmem
      rw [hfail] at this
      exact Bool.false_ne_true this
    simp [dispatchMessage, hx]

/-- Witness for `dispatch_ack_nack_policy`: a key with no handlers is
acked; with two handlers on `"order.created"` where the second throws,
the message is nacked without requeue although the first succeeded. -/
theorem dispatch_ack_nack_policy_witness :
    dispatchMessage ([] : List (String × List (Nat → Except String Unit))) "order.created"
        (some 0) = .ack
    ∧ dispatchMessage sampleRegistry "order.created" (some 0) = .nackNoRequeue :=
  ⟨(dispatch_ack_nack_policy [] "order.created" 0).1 rfl,
   (dispatch_ack_nack_policy sampleRegistry "order.created" 0).2.2 failHandler
     (by rw [show ((sampleRegistry.lookup "order.created").getD [])
               = [okHandler, failHandler] from rfl]
         exact List.mem_cons_of_mem _ (List.mem_singleton.mpr rfl))
     rfl⟩

/-- C10: a delivery whose body fails `JSON.parse` is caught by the same
`catch` as a handler failure and nacked without requeue; the callback
always returns an acknowledgment decision, never rethrowing. -/
theorem dispatch_parse_failure {α : Type}
    (registry : List (String × List (α → Except String Unit))) (key : String) :
    dispatchMessage registry key (none : Option α) = .nackNoRequeue := rfl

/-- C6 counterexample: after a successful `init()`, a channel `close`
event nulls the channel handle but leaves the heartbeat timer running
(`handleChannelClose` never calls `stopHeartbeat`), refuting the claimed
biconditional between heartbeat timer and channel liveness. -/
theorem heartbeat_channel_invariant_refuted :
    (run initialState [Ev.initOk, Ev.channelCloseEvt]).heartbeat = true
    ∧ (run initialState [Ev.initOk, Ev.channelCloseEvt]).channel = false
    ∧ ¬ heartbeatChannelInv (run initialState [Ev.initOk, Ev.channelCloseEvt]) := by
  refine ⟨by decide, by decide, ?_⟩
  unfold heartbeatChannelInv
  decide

/-- C6 (amended): connection-level error/close and `close()` stop the
heartbeat and a successful connect starts it, but channel-level
error/close null the channel without stopping the heartbeat, and a
connection error stops the heartbeat while leaving the channel handle
set — so neither direction of the claimed biconditional holds as an
invariant. -/
theorem heartbeat_lifecycle (s : ClientState) :
    (handleConnectionError s).heartbeat = false
    ∧ (handleConnectionClose s).heartbeat = false
    ∧ (close s).heartbeat = false
    ∧ (connectOk s).heartbeat = true
    ∧ (handleChannelError s).heartbeat = s.heartbeat
    ∧ (handleChannelClose s).heartbeat = s.heartbeat
    ∧ (handleChannelError s).channel = false
    ∧ (handleChannelClose s).channel = false
    ∧ (handleConnectionError s).channel = s.channel := by
  refine ⟨?_, ?_, (close_frame s).2.2.2.2.2.1, rfl, ?_, ?_, ?_, ?_, ?_⟩
  · by_cases h1 : s.isReconnecting = true
    · simp [handleConnectionError, stopHeartbeat, h1]
    · simp [handleConnectionError, stopHeartbeat, h1]
      rw [(scheduleReconnect_frame _).1]
  · by_cases h1 : s.isReconnecting = true
    · simp [handleConnectionClose, stopHeartbeat, h1]
    · simp [handleConnectionClose, stopHeartbeat, h1]
      rw [(scheduleReconnect_frame _).1]
  · by_cases hc : s.connection = true
    · by_cases h1 : s.isReconnecting = true
      · simp [handleChannelError, hc, h1]
      · simp [handleChannelError, hc, h1]
        rw [(scheduleReconnect_frame _).1]
    · simp [handleChannelError, hc]
  · by_cases hc : s.connection = true
    · by_cases h1 : s.isReconnecting = true
      · simp [handleChannelClose, hc, h1]
      · simp [handleChannelClose, hc, h1]
        rw [(scheduleReconnect_frame _).1]
    · simp [handleChannelClose, hc]
  · by_cases hc : s.connection = true
    · by_cases h1 : s.isReconnecting = true
      · simp [handleChannelError, hc, h1]
      · simp [handleChannelError, hc, h1]
        rw [(scheduleReconnect_frame _).2.1]
    · simp [handleChannelError, hc]
  · by_cases hc : s.connection = true
    · by_cases h1 : s.isReconnecting = true
      · simp [handleChannelClose, hc, h1]
      · simp [handleChannelClose, hc, h1]
        rw [(scheduleReconnect_frame _).2.1]
    · simp [handleChannelClose, hc]
  · by_cases h1 : s.isReconnecting = true
    · simp [handleConnectionError, stopHeartbeat, h1]
    · simp [handleConnectionError, stopHeartbeat, h1]
      rw [(scheduleReconnect_frame _).2.1]

end RabbitMq

namespace RabbitMq

/-- Registry/consumer-state frame of `handleConnectionClose`. -/
theorem handleConnectionClose_registry_frame (s : ClientState) :
    (handleConnectionClose s).eventHandlers = s.eventHandlers
    ∧ (handleConnectionClose s).queueName = s.queueName
    ∧ (handleConnectionClose s).consumerTag = none
    ∧ (handleConnectionClose s).consumerSetupActive = false := by
  by_cases h1 : s.isReconnecting = true
  · simp [handleConnectionClose, stopHeartbeat, h1]
  · simp [handleConnectionClose, stopHeartbeat, h1]
    have hx := scheduleReconnect_frame
      { s with isReconnecting := false, heartbeat := false, channel := false,
               consumerTag := none, consumerSetupActive := false }
    exact ⟨hx.2.2.2.1, hx.2.2.2.2.1, hx.2.2.2.2.2.1, hx.2.2.2.2.2.2.1⟩

/-- Registry/consumer-state frame of `handleChannelError`. -/
theorem handleChannelError_registry_frame (s : ClientState) :
    (handleChannelError s).eventHandlers = s.eventHandlers
    ∧ (handleChannelError s).queueName = s.queueName
    ∧ (handleChannelError s).consumerTag = none
    ∧ (handleChannelError s).consumerSetupActive = false := by
  by_cases hc : s.connection = true
  · by_cases h1 : s.isReconnecting = true
    · simp [handleChannelError, hc, h1]
    · simp [handleChannelError, hc, h1]
      have hx := scheduleReconnect_frame
        { s with connection := true, channel := false, consumerTag := none,
                 consumerSetupActive := false, isReconnecting := false }
      exact ⟨hx.2.2.2.1, hx.2.2.2.2.1, hx.2.2.2.2.2.1, hx.2.2.2.2.2.2.1⟩
  · simp [handleChannelError, hc]

/-- Registry/consumer-state frame of `handleChannelClose`. -/
theorem handleChannelClose_registry_frame (s : ClientState) :
    (handleChannelClose s).eventHandlers = s.eventHandlers
    ∧ (handleChannelClose s).queueName = s.queueName
    ∧ (handleChannelClose s).consumerTag = none
    ∧ (handleChannelClose s).consumerSetupActive = false := by
  by_cases hc : s.connection = true
  · by_cases h1 : s.isReconnecting = true
    · simp [handleChannelClose, hc, h1]
    · simp [handleChannelClose, hc, h1]
      have hx := scheduleReconnect_frame
        { s with connection := true, channel := false, consumerTag := none,
                 consumerSetupActive := false, isReconnecting := false }
      exact ⟨hx.2.2.2.1, hx.2.2.2.2.1, hx.2.2.2.2.2.1, hx.2.2.2.2.2.2.1⟩
  · simp [handleChannelClose, hc]

/-- Registry and queue-name frame of a reconnect-timer fire (the timer
callback runs `connect()` and possibly the consumer re-setup, or on
failure schedules again): the handler registry is untouched and a queue
name, once assigned, is never renamed — it can only go from unassigned
to the broker-assigned name. -/
theorem reconnectTimerFire_registry_frame (s : ClientState) (ok : Bool) :
    (reconnectTimerFire s ok).eventHandlers = s.eventHandlers
    ∧ ((reconnectTimerFire s ok).queueName = s.queueName
       ∨ (s.queueName = none ∧ (reconnectTimerFire s ok).queueName = some brokerQueue)) := by
  by_cases hp : s.pendingTimers = 0
  · simp [reconnectTimerFire, hp]
  · cases ok with
    | false =>
      simp [reconnectTimerFire, hp, connectFail]
      have hx := scheduleReconnect_frame
        { s with connection := false, channel := false, connectionClosedByServer := false,
                 pendingTimers := s.pendingTimers - 1 }
      exact ⟨hx.2.2.2.1, Or.inl hx.2.2.2.2.1⟩
    | true =>
      by_cases hemp : s.eventHandlers.isEmpty = true
      · simp [reconnectTimerFire, hp, connectOk, hemp]
      · by_cases hact : s.consumerSetupActive = true
        · simp [reconnectTimerFire, hp, connectOk, hemp, setupConsumerOk, hact]
        · by_cases htag : s.consumerTag.isSome = true
          · simp [reconnectTimerFire, hp, connectOk, hemp, setupConsumerOk, hact, htag]
          · cases hq : s.queueName with
            | none =>
              simp [reconnectTimerFire, hp, connectOk, hemp, setupConsumerOk, hact, htag, hq]
            | some q =>
              simp [reconnectTimerFire, hp, connectOk, hemp, setupConsumerOk, hact, htag, hq]

/-- C8: every reconnect-path transition — connection close, channel
error, channel close, the arming in `scheduleReconnect`, and the timer
callback itself — leaves the handler registry untouched and never
renames an assigned queue name; among the consumer state only the
consumer tag and the single-flight setup handle are reset. -/
theorem reconnect_path_frame (s : ClientState) (ok : Bool) :
    (handleConnectionClose s).eventHandlers = s.eventHandlers
    ∧ (handleConnectionClose s).queueName = s.queueName
    ∧ (handleConnectionClose s).consumerTag = none
    ∧ (handleConnectionClose s).consumerSetupActive = false
    ∧ (handleChannelError s).eventHandlers = s.eventHandlers
    ∧ (handleChannelError s).queueName = s.queueName
    ∧ (handleChannelError s).consumerTag = none
    ∧ (handleChannelError s).consumerSetupActive = false
    ∧ (handleChannelClose s).eventHandlers = s.eventHandlers
    ∧ (handleChannelClose s).queueName = s.queueName
    ∧ (handleChannelClose s).consumerTag = none
    ∧ (handleChannelClose s).consumerSetupActive = false
    ∧ (scheduleReconnect s).1.eventHandlers = s.eventHandlers
    ∧ (scheduleReconnect s).1.queueName = s.queueName
    ∧ (scheduleReconnect s).1.consumerTag = s.consumerTag
    ∧ (scheduleReconnect s).1.consumerSetupActive = s.consumerSetupActive
    ∧ (reconnectTimerFire s ok).eventHandlers = s.eventHandlers
    ∧ ((reconnectTimerFire s ok).queueName = s.queueName
       ∨ (s.queueName = none ∧ (reconnectTimerFire s ok).queueName = some brokerQueue)) :=
  ⟨(handleConnectionClose_registry_frame s).1, (handleConnectionClose_registry_frame s).2.1,
   (handleConnectionClose_registry_frame s).2.2.1, (handleConnectionClose_registry_frame s).2.2.2,
   (handleChannelError_registry_frame s).1, (handleChannelError_registry_frame s).2.1,
   (handleChannelError_registry_frame s).2.2.1, (handleChannelError_registry_frame s).2.2.2,
   (handleChannelClose_registry_frame s).1, (handleChannelClose_registry_frame s).2.1,
   (handleChannelClose_registry_frame s).2.2.1, (handleChannelClose_registry_frame s).2.2.2,
   (scheduleReconnect_frame s).2.2.2.1, (scheduleReconnect_frame s).2.2.2.2.1,
   (scheduleReconnect_frame s).2.2.2.2.2.1, (scheduleReconnect_frame s).2.2.2.2.2.2.1,
   (reconnectTimerFire_registry_frame s ok).1, (reconnectTimerFire_registry_frame s ok).2⟩

/-- C9 counterexample: neither the `IRabbitMqClient` interface nor the
`RabbitMqClient` class declares any `unregisterHandler` (or
`unregisterEventHandler`) operation. -/
theorem unregisterHandler_absent :
    "unregisterHandler" ∉ clientPublicMethods
    ∧ "unregisterHandler" ∉ interfaceMethods
    ∧ "unregisterEventHandler" ∉ clientPublicMethods
    ∧ "unregisterEventHandler" ∉ interfaceMethods := by
  decide

/-- C9 (amended): the public surface offers registration
(`registerEventHandler` and its deprecated alias
`handleIntegrationEvent`) plus `init`, `publishIntegrationEvent` and
`close`, and no handler-removal operation at all: once registered, a
handler stays until the client object is discarded. -/
theorem handler_removal_not_exposed :
    "registerEventHandler" ∈ clientPublicMethods
    ∧ "registerEventHandler" ∈ interfaceMethods
    ∧ "handleIntegrationEvent" ∈ clientPublicMethods
    ∧ "close" ∈ clientPublicMethods
    ∧ clientPublicMethods
      = ["init", "publishIntegrationEvent", "registerEventHandler",
         "handleIntegrationEvent", "close"]
    ∧ "unregisterHandler" ∉ clientPublicMethods ++ interfaceMethods
    ∧ "unregisterEventHandler" ∉ clientPublicMethods ++ interfaceMethods := by
  decide

end RabbitMq

namespace RabbitMq

/-- Single step of the before-any-`init` invariant: with no connection
ever created, no handles, no pending timer and the initialized flag
down, every event other than a successful `init()` preserves all of
that (transport listeners do not exist yet, no timer can fire, and the
guarded operations fail before connecting). -/
theorem applyEvent_never_init (s : ClientState) (e : Ev) (he : e ≠ Ev.initOk)
    (h : s.isInitialized = false ∧ s.connection = false ∧ s.channel = false
         ∧ s.everConnected = false ∧ s.pendingTimers = 0) :
    (applyEvent s e).isInitialized = false ∧ (applyEvent s e).connection = false
    ∧ (applyEvent s e).channel = false ∧ (applyEvent s e).everConnected = false
    ∧ (applyEvent s e).pendingTimers = 0 := by
  obtain ⟨h1, h2, h3, h4, h5⟩ := h
  cases e with
  | initOk => exact absurd rfl he
  | connectionErrorEvt => simp [applyEvent, h1, h2, h3, h4, h5]
  | connectionCloseEvt => simp [applyEvent, h1, h2, h3, h4, h5]
  | channelErrorEvt => simp [applyEvent, h1, h2, h3, h4, h5]
  | channelCloseEvt => simp [applyEvent, h1, h2, h3, h4, h5]
  | closeCall => simp [applyEvent, close, stopHeartbeat, h1, h2, h3, h4, h5]
  | reconnectFire ok => simp [applyEvent, reconnectTimerFire, h1, h2, h3, h4, h5]
  | publishEvt =>
    simp [applyEvent, publishIntegrationEvent, ensureConnection, h1, h2, h3, h4, h5]
  | registerEvt key hd =>
    simp [applyEvent, registerEventHandler, ensureConnection, h1, h2, h3, h4, h5]

/-- Along any trace that never contains a successful `init()`, the
client keeps no handles and stays uninitialized. -/
theorem run_never_init (tr : List Ev) (s : ClientState)
    (hm : ∀ e ∈ tr, e ≠ Ev.initOk)
    (h : s.isInitialized = false ∧ s.connection = false ∧ s.channel = false
         ∧ s.everConnected = false ∧ s.pendingTimers = 0) :
    (run s tr).isInitialized = false ∧ (run s tr).connection = false
    ∧ (run s tr).channel = false ∧ (run s tr).everConnected = false
    ∧ (run s tr).pendingTimers = 0 := by
  induction tr generalizing s with
  | nil => exact h
  | cons e tl ih =>
    exact ih (applyEvent s e) (fun e' he' => hm e' (by simp [he']))
      (applyEvent_never_init s e (hm e (by simp)) h)

/-- C7 counterexample: after `init()` succeeds, a connection `error`
event starts a reconnection (`isReconnecting = true`) but leaves both
handles set, so `publishIntegrationEvent` proceeds and publishes instead
of failing with the reconnecting error — the `ensureConnection` guards
are only consulted when a handle is missing. -/
theorem reconnecting_guard_not_enforced_with_live_handles :
    (run initialState [Ev.initOk, Ev.connectionErrorEvt]).isReconnecting = true
    ∧ publishIntegrationEvent (run initialState [Ev.initOk, Ev.connectionErrorEvt]) "ex"
        ⟨"e1"⟩
      = .ok (run initialState [Ev.initOk, Ev.connectionErrorEvt], ⟨"ex", "e1"⟩) :=
  ⟨rfl, rfl⟩

/-- C7 (amended): when the connection or channel handle is missing,
`publishIntegrationEvent` and `registerEventHandler` fail with the
not-initialized error if `init()` never completed, fail with the
reconnecting error while a reconnection is in progress, and otherwise
lazily reconnect before proceeding; when both handles are present the
operations proceed directly without consulting those guards.  Before any
`init()` at all, publishing always fails with the not-initialized
error. -/
theorem ensureConnection_guards (s : ClientState) (tr : List Ev) (exchange : String)
    (ev : RabbitMqEventBase) (key : String) (hId : Nat) :
    ((s.connection = false ∨ s.channel = false) → s.isInitialized = false →
      ensureConnection s = .error .notInitialized
      ∧ publishIntegrationEvent s exchange ev = .error .notInitialized
      ∧ registerEventHandler s key hId = .error .notInitialized)
    ∧ ((s.connection = false ∨ s.channel = false) → s.isInitialized = true →
        s.isReconnecting = true →
      ensureConnection s = .error .reconnecting
      ∧ publishIntegrationEvent s exchange ev = .error .reconnecting
      ∧ registerEventHandler s key hId = .error .reconnecting)
    ∧ ((s.connection = false ∨ s.channel = false) → s.isInitialized = true →
        s.isReconnecting = false → ensureConnection s = .ok (connectOk s, true))
    ∧ (s.connection = true → s.channel = true → ensureConnection s = .ok (s, false))
    ∧ ((∀ e ∈ tr, e ≠ Ev.initOk) →
        publishIntegrationEvent (run initialState tr) exchange ev
          = .error .notInitialized) := by
  refine ⟨?_, ?_, ?_, ?_, ?_⟩
  · intro hmiss hinit
    rcases hmiss with hm | hm <;>
      exact ⟨by simp [ensureConnection, hm, hinit],
             by simp [publishIntegrationEvent, ensureConnection, hm, hinit],
             by simp [registerEventHandler, ensureConnection, hm, hinit]⟩
  · intro hmiss hinit hrec
    rcases hmiss with hm | hm <;>
      exact ⟨by simp [ensureConnection, hm, hinit, hrec],
             by simp [publishIntegrationEvent, ensureConnection, hm, hinit, hrec],
             by simp [registerEventHandler, ensureConnection, hm, hinit, hrec]⟩
  · intro hmiss hinit hrec
    rcases hmiss with hm | hm <;> simp [ensureConnection, hm, hinit, hrec]
  · intro hcon hchan
    simp [ensureConnection, hcon, hchan]
  · intro hm
    have hx := run_never_init tr initialState hm ⟨rfl, rfl, rfl, rfl, rfl⟩
    simp [publishIntegrationEvent, ensureConnection, hx.1, hx.2.1]

/-- Witness for `ensureConnection_guards`, one instantiation per guard
clause. -/
theorem ensureConnection_guards_witness :
    publishIntegrationEvent initialState "ex" ⟨"e1"⟩ = .error .notInitialized
    ∧ ensureConnection { initialState with isInitialized := true, isReconnecting := true }
        = .error .reconnecting
    ∧ ensureConnection { initialState with isInitialized := true }
        = .ok (connectOk { initialState with isInitialized := true }, true)
    ∧ ensureConnection connectedSample = .ok (connectedSample, false)
    ∧ publishIntegrationEvent (run initialState [Ev.closeCall]) "ex" ⟨"e1"⟩
        = .error .notInitialized :=
  ⟨((ensureConnection_guards initialState [Ev.closeCall] "ex" ⟨"e1"⟩ "k" 0).1
      (Or.inl rfl) rfl).2.1,
   ((ensureConnection_guards { initialState with isInitialized := true, isReconnecting := true }
      [] "ex" ⟨"e1"⟩ "k" 0).2.1 (Or.inl rfl) rfl rfl).1,
   (ensureConnection_guards { initialState with isInitialized := true }
      [] "ex" ⟨"e1"⟩ "k" 0).2.2.1 (Or.inl rfl) rfl rfl,
   (ensureConnection_guards connectedSample [] "ex" ⟨"e1"⟩ "k" 0).2.2.2.1 rfl rfl,
   (ensureConnection_guards initialState [Ev.closeCall] "ex" ⟨"e1"⟩ "k" 0).2.2.2.2
     (by decide)⟩

end RabbitMq

namespace SingleFlight

/-- A member of `l` distinct from the entry being replaced survives
`List.set`. -/
theorem mem_set_of_ne (l : List (List Act)) (i : Nat) (x y t : List Act)
    (ht : t ∈ l) (hy : l[i]? = some y) (hne : t ≠ y) : t ∈ l.set i x := by
  obtain ⟨j, hj⟩ := List.mem_iff_getElem?.mp ht
  by_cases hji : j = i
  · subst hji
    rw [hj] at hy
    exact absurd (Option.some.inj hy) hne
  · have hx : (l.set i x)[j]? = some t := by
      rw [List.getElem?_set_ne (Ne.symm hji)]
      exact hj
    exact List.getElem?_mem hx

/-- Characterization of a successful scheduler step. -/
theorem stepAt_eq_some (c : Config) (i : Nat) (a : Act) (rest : List Act)
    (hi : c.2[i]? = some (a :: rest)) :
    stepAt c i = some ((stepAct c.1 a rest).1,
      c.2.set i (stepAct c.1 a rest).2.1 ++ (stepAct c.1 a rest).2.2) := by
  unfold stepAt
  rw [hi]

/-- Phase A is preserved or advances to phase B. -/
theorem stepA_preserved (st : SetupSt) (pool : List (List Act)) (i : Nat) (a : Act)
    (rest : List Act) (hi : pool[i]? = some (a :: rest)) (hA : PhaseA (st, pool)) :
    StInv ((stepAct st a rest).1,
      pool.set i (stepAct st a rest).2.1 ++ (stepAct st a rest).2.2) := by
  obtain ⟨hPA, hTag, hCnt, hReg, tEnt, htEnt, hEnt⟩ := hA
  replace hPA : st.promiseActive = false := hPA
  replace hTag : st.consumerTag = false := hTag
  replace hCnt : st.consumeCalls = 0 := hCnt
  replace hReg : ∀ t ∈ pool, isRegSuffixP t := hReg
  replace htEnt : tEnt ∈ pool := htEnt
  have hlt : i < pool.length := (List.getElem?_eq_some.mp hi).1
  rcases hReg _ (List.getElem?_mem hi) with h0 | h1 | ⟨k', h', h2⟩ | ⟨k', h', h3⟩
  · exact absurd h0 (by simp)
  · -- the register task finishes its final bind
    injection h1 with ha hr
    subst ha
    subst hr
    simp only [stepAct, List.append_nil]
    left
    refine ⟨hPA, hTag, hCnt, ?_, ?_⟩
    · intro t ht
      rcases List.mem_or_eq_of_mem_set ht with h | h
      · exact hReg t h
      · subst h
        exact Or.inl rfl
    · have hne : tEnt ≠ [Act.regBind] := by
        rintro rfl
        obtain ⟨k, h, hm⟩ := hEnt
        simp at hm
      exact ⟨tEnt, mem_set_of_ne pool i _ _ tEnt htEnt hi hne, hEnt⟩
  · -- the first `enter`: spawn the setup task, moving to phase B
    injection h2 with ha hr
    subst ha
    subst hr
    simp only [stepAct]
    rw [if_neg (by simp [hPA]), if_neg (by simp [hTag])]
    right; left
    refine ⟨rfl, (pool.set i [Act.regBind]).length, setupProg,
      List.getElem?_concat_length _ _, Or.inl ⟨Or.inl rfl, hTag, hCnt⟩, ?_⟩
    intro j T hj hT
    by_cases hjl : j < (pool.set i [Act.regBind]).length
    · rw [List.getElem?_append_left hjl] at hT
      by_cases hji : j = i
      · subst hji
        rw [List.getElem?_set_self (by simpa using hlt)] at hT
        obtain rfl := (Option.some.inj hT).symm
        exact Or.inr (Or.inl rfl)
      · rw [List.getElem?_set_ne (Ne.symm hji)] at hT
        exact hReg T (List.getElem?_mem hT)
    · rw [List.getElem?_append_right (Nat.le_of_not_lt hjl)] at hT
      have hgt : 1 ≤ j - (pool.set i [Act.regBind]).length := by
        omega
      rw [List.getElem?_eq_none (by simpa using hgt)] at hT
      exact absurd hT (by simp)
  · -- the initial `await ensureConnection` suspension of a register task
    injection h3 with ha hr
    subst ha
    subst hr
    simp only [stepAct, List.append_nil]
    left
    refine ⟨hPA, hTag, hCnt, ?_, ?_⟩
    · intro t ht
      rcases List.mem_or_eq_of_mem_set ht with h | h
      · exact hReg t h
      · subst h
        exact Or.inr (Or.inr (Or.inl ⟨k', h', rfl⟩))
    · exact ⟨[Act.enter k' h', Act.regBind],
        List.getElem?_mem (List.getElem?_set_self hlt), k', h', by simp⟩

end SingleFlight

namespace SingleFlight

/-- Phase B is preserved or advances to phase C. -/
theorem stepB_preserved (st : SetupSt) (pool : List (List Act)) (i : Nat) (a : Act)
    (rest : List Act) (hi : pool[i]? = some (a :: rest)) (hB : PhaseB (st, pool)) :
    StInv ((stepAct st a rest).1,
      pool.set i (stepAct st a rest).2.1 ++ (stepAct st a rest).2.2) := by
  obtain ⟨hPB, k, S, hk, hsub, hother⟩ := hB
  replace hPB : st.promiseActive = true := hPB
  replace hk : pool[k]? = some S := hk
  replace hsub : SetupSub st S := hsub
  replace hother : ∀ (j : Nat) (T : List Act), j ≠ k → pool[j]? = some T → isRegSuffixP T :=
    hother
  have hlt : i < pool.length := (List.getElem?_eq_some.mp hi).1
  by_cases hik : i = k
  · subst hik
    rw [hi] at hk
    have hS := Option.some.inj hk
    rcases hsub with ⟨hf | hf | hf, hTag, hCnt⟩ | ⟨hf, hTag, hCnt⟩ | ⟨hf | hf, hTag, hCnt⟩
    · -- head `setupEnsure`
      have hform : a :: rest = [Act.setupEnsure, Act.setupQueue, Act.setupConsume,
          Act.setupTag, Act.setupBind, Act.setupFinish] := hS.trans (hf.trans rfl)
      injection hform with ha hr
      subst ha
      subst hr
      simp only [stepAct, List.append_nil]
      right; left
      refine ⟨hPB, i, _, List.getElem?_set_self hlt,
        Or.inl ⟨Or.inr (Or.inl rfl), hTag, hCnt⟩, ?_⟩
      intro j T hj hT
      rw [List.getElem?_set_ne (Ne.symm hj)] at hT
      exact hother j T hj hT
    · -- head `setupQueue`
      have hform : a :: rest = [Act.setupQueue, Act.setupConsume,
          Act.setupTag, Act.setupBind, Act.setupFinish] := hS.trans hf
      injection hform with ha hr
      subst ha
      subst hr
      simp only [stepAct]
      by_cases hq : st.queueNamed = true
      · rw [if_pos hq]
        simp only [List.append_nil]
        right; left
        refine ⟨hPB, i, _, List.getElem?_set_self hlt,
          Or.inl ⟨Or.inr (Or.inr rfl), hTag, hCnt⟩, ?_⟩
        intro j T hj hT
        rw [List.getElem?_set_ne (Ne.symm hj)] at hT
        exact hother j T hj hT
      · rw [if_neg hq]
        simp only [List.append_nil]
        right; left
        refine ⟨hPB, i, _, List.getElem?_set_self hlt,
          Or.inl ⟨Or.inr (Or.inr rfl), hTag, hCnt⟩, ?_⟩
        intro j T hj hT
        rw [List.getElem?_set_ne (Ne.symm hj)] at hT
        exact hother j T hj hT
    · -- head `setupConsume`: the one consume call is made here
      have hform : a :: rest = [Act.setupConsume, Act.setupTag, Act.setupBind,
          Act.setupFinish] := hS.trans hf
      injection hform with ha hr
      subst ha
      subst hr
      simp only [stepAct]
      rw [if_neg (by simp [hTag])]
      simp only [List.append_nil]
      right; left
      refine ⟨hPB, i, _, List.getElem?_set_self hlt,
        Or.inr (Or.inl ⟨rfl, hTag, by simp [hCnt]⟩), ?_⟩
      intro j T hj hT
      rw [List.getElem?_set_ne (Ne.symm hj)] at hT
      exact hother j T hj hT
    · -- head `setupTag`
      have hform : a :: rest = [Act.setupTag, Act.setupBind, Act.setupFinish] :=
        hS.trans hf
      injection hform with ha hr
      subst ha
      subst hr
      simp only [stepAct, List.append_nil]
      right; left
      refine ⟨hPB, i, _, List.getElem?_set_self hlt,
        Or.inr (Or.inr ⟨Or.inl rfl, rfl, hCnt⟩), ?_⟩
      intro j T hj hT
      rw [List.getElem?_set_ne (Ne.symm hj)] at hT
      exact hother j T hj hT
    · -- head `setupBind`
      have hform : a :: rest = [Act.setupBind, Act.setupFinish] := hS.trans hf
      injection hform with ha hr
      subst ha
      subst hr
      simp only [stepAct, List.append_nil]
      right; left
      refine ⟨hPB, i, _, List.getElem?_set_self hlt,
        Or.inr (Or.inr ⟨Or.inr rfl, hTag, hCnt⟩), ?_⟩
      intro j T hj hT
      rw [List.getElem?_set_ne (Ne.symm hj)] at hT
      exact hother j T hj hT
    · -- head `setupFinish`: the setup completes, moving to phase C
      have hform : a :: rest = [Act.setupFinish] := hS.trans hf
      injection hform with ha hr
      subst ha
      subst hr
      simp only [stepAct, List.append_nil]
      right; right
      refine ⟨rfl, hTag, hCnt, ?_⟩
      intro t ht
      obtain ⟨j, hj⟩ := List.mem_iff_getElem?.mp ht
      by_cases hji : j = i
      · subst hji
        rw [List.getElem?_set_self hlt] at hj
        obtain rfl := (Option.some.inj hj).symm
        exact Or.inl rfl
      · rw [List.getElem?_set_ne (Ne.symm hji)] at hj
        exact hother j t hji hj
  · -- a register task steps while the setup is in flight
    rcases hother i (a :: rest) hik hi with h0 | h1 | ⟨k', h', h2⟩ | ⟨k', h', h3⟩
    · exact absurd h0 (by simp)
    · injection h1 with ha hr
      subst ha
      subst hr
      simp only [stepAct, List.append_nil]
      right; left
      refine ⟨hPB, k, S, ?_, hsub, ?_⟩
      · rw [List.getElem?_set_ne hik]
        exact hk
      · intro j T hj hT
        by_cases hji : j = i
        · subst hji
          rw [List.getElem?_set_self hlt] at hT
          obtain rfl := (Option.some.inj hT).symm
          exact Or.inl rfl
        · rw [List.getElem?_set_ne (Ne.symm hji)] at hT
          exact hother j T hj hT
    · -- `enter` joins the in-flight setup promise
      injection h2 with ha hr
      subst ha
      subst hr
      simp only [stepAct]
      rw [if_pos hPB]
      simp only [List.append_nil]
      right; left
      refine ⟨hPB, k, S, ?_, hsub, ?_⟩
      · rw [List.getElem?_set_ne hik]
        exact hk
      · intro j T hj hT
        by_cases hji : j = i
        · subst hji
          rw [List.getElem?_set_self hlt] at hT
          obtain rfl := (Option.some.inj hT).symm
          exact Or.inr (Or.inl rfl)
        · rw [List.getElem?_set_ne (Ne.symm hji)] at hT
          exact hother j T hj hT
    · injection h3 with ha hr
      subst ha
      subst hr
      simp only [stepAct, List.append_nil]
      right; left
      refine ⟨hPB, k, S, ?_, hsub, ?_⟩
      · rw [List.getElem?_set_ne hik]
        exact hk
      · intro j T hj hT
        by_cases hji : j = i
        · subst hji
          rw [List.getElem?_set_self hlt] at hT
          obtain rfl := (Option.some.inj hT).symm
          exact Or.inr (Or.inr (Or.inl ⟨k', h', rfl⟩))
        · rw [List.getElem?_set_ne (Ne.symm hji)] at hT
          exact hother j T hj hT

end SingleFlight

namespace SingleFlight

/-- Phase C is preserved by every step. -/
theorem stepC_preserved (st : SetupSt) (pool : List (List Act)) (i : Nat) (a : Act)
    (rest : List Act) (hi : pool[i]? = some (a :: rest)) (hC : PhaseC (st, pool)) :
    StInv ((stepAct st a rest).1,
      pool.set i (stepAct st a rest).2.1 ++ (stepAct st a rest).2.2) := by
  obtain ⟨hPA, hTag, hCnt, hReg⟩ := hC
  replace hPA : st.promiseActive = false := hPA
  replace hTag : st.consumerTag = true := hTag
  replace hCnt : st.consumeCalls = 1 := hCnt
  replace hReg : ∀ t ∈ pool, isRegSuffixP t := hReg
  have hlt : i < pool.length := (List.getElem?_eq_some.mp hi).1
  rcases hReg _ (List.getElem?_mem hi) with h0 | h1 | ⟨k', h', h2⟩ | ⟨k', h', h3⟩
  · exact absurd h0 (by simp)
  · injection h1 with ha hr
    subst ha
    subst hr
    simp only [stepAct, List.append_nil]
    right; right
    refine ⟨hPA, hTag, hCnt, ?_⟩
    intro t ht
    rcases List.mem_or_eq_of_mem_set ht with h | h
    · exact hReg t h
    · subst h
      exact Or.inl rfl
  · -- a late `enter`: the consumer tag exists, so no new setup is spawned
    injection h2 with ha hr
    subst ha
    subst hr
    simp only [stepAct]
    rw [if_neg (by simp [hPA]), if_pos hTag]
    simp only [List.append_nil]
    right; right
    refine ⟨hPA, hTag, hCnt, ?_⟩
    intro t ht
    rcases List.mem_or_eq_of_mem_set ht with h | h
    · exact hReg t h
    · subst h
      exact Or.inr (Or.inl rfl)
  · injection h3 with ha hr
    subst ha
    subst hr
    simp only [stepAct, List.append_nil]
    right; right
    refine ⟨hPA, hTag, hCnt, ?_⟩
    intro t ht
    rcases List.mem_or_eq_of_mem_set ht with h | h
    · exact hReg t h
    · subst h
      exact Or.inr (Or.inr (Or.inl ⟨k', h', rfl⟩))

/-- The invariant is preserved by any scheduler step. -/
theorem stepAt_StInv (c c' : Config) (i : Nat) (hstep : stepAt c i = some c')
    (hinv : StInv c) : StInv c' := by
  obtain ⟨st, pool⟩ := c
  cases hpool : pool[i]? with
  | none =>
    unfold stepAt at hstep
    rw [show ((st, pool) : Config).2 = pool from rfl, hpool] at hstep
    simp at hstep
  | some t =>
    cases t with
    | nil =>
      unfold stepAt at hstep
      rw [show ((st, pool) : Config).2 = pool from rfl, hpool] at hstep
      simp at hstep
    | cons a rest =>
      have heq := stepAt_eq_some (st, pool) i a rest hpool
      rw [hstep] at heq
      obtain rfl := Option.some.inj heq
      rcases hinv with hA | hB | hC
      · exact stepA_preserved st pool i a rest hpool hA
      · exact stepB_preserved st pool i a rest hpool hB
      · exact stepC_preserved st pool i a rest hpool hC

/-- The invariant is preserved along any schedule. -/
theorem runSched_StInv (sched : List Nat) (c c' : Config)
    (hrun : runSched c sched = some c') (hinv : StInv c) : StInv c' := by
  induction sched generalizing c with
  | nil =>
    obtain rfl := Option.some.inj hrun
    exact hinv
  | cons i is ih =>
    unfold runSched at hrun
    cases hs : stepAt c i with
    | none =>
      rw [hs] at hrun
      simp at hrun
    | some c1 =>
      rw [hs] at hrun
      exact ih c1 hrun (stepAt_StInv c c1 i hs hinv)

/-- The starting configuration of at least one register task satisfies
the invariant (phase A). -/
theorem initConfig_StInv (ks : List (String × Nat)) (hne : ks ≠ []) :
    StInv (initConfig ks) := by
  left
  refine ⟨rfl, rfl, rfl, ?_, ?_⟩
  · intro t ht
    simp only [initConfig, List.mem_map] at ht
    obtain ⟨kh, _, rfl⟩ := ht
    exact Or.inr (Or.inr (Or.inr ⟨kh.1, kh.2, rfl⟩))
  · cases ks with
    | nil => exact absurd rfl hne
    | cons kh tl =>
      exact ⟨regProg kh.1 kh.2, by simp [initConfig], kh.1, kh.2, by simp [regProg]⟩

/-- In a completed configuration the invariant forces exactly one
consume call. -/
theorem allDone_consumeCalls (c : Config) (hd : allDone c = true) (hinv : StInv c) :
    c.1.consumeCalls = 1 := by
  rcases hinv with hA | hB | hC
  · obtain ⟨_, _, _, _, t, ht, k, h, hm⟩ := hA
    have hempty : t = [] := List.isEmpty_iff.mp (List.all_eq_true.mp hd t ht)
    subst hempty
    simp at hm
  · obtain ⟨_, k, S, hk, hsub, _⟩ := hB
    have hmem : S ∈ c.2 := List.getElem?_mem hk
    have hempty : S = [] := List.isEmpty_iff.mp (List.all_eq_true.mp hd S hmem)
    subst hempty
    rcases hsub with ⟨hf | hf | hf, _, _⟩ | ⟨hf, _, _⟩ | ⟨hf | hf, _, _⟩ <;> simp [setupProg] at hf
  · exact hC.2.2.1

end SingleFlight

/-- C4: for any ten concurrent `registerEventHandler` calls on ten
distinct new routing keys issued before any consumer exists, and any
interleaving of their atomic segments that the event loop may choose,
every completed run makes exactly one `channel.consume` call: the first
caller to reach `setupConsumer` publishes the single-flight promise and
all others either join it or find the consumer tag already set. -/
theorem single_flight_consumer_setup (ks : List (String × Nat)) (sched : List Nat)
    (c' : SingleFlight.Config) (hlen : ks.length = 10)
    (hnodup : (ks.map Prod.fst).Nodup)
    (hrun : SingleFlight.runSched (SingleFlight.initConfig ks) sched = some c')
    (hdone : SingleFlight.allDone c' = true) :
    c'.1.consumeCalls = 1 :=
  SingleFlight.allDone_consumeCalls c' hdone
    (SingleFlight.runSched_StInv sched _ c' hrun
      (SingleFlight.initConfig_StInv ks (by
        intro h
        rw [h] at hlen
        simp at hlen)))

/-- Witness for `single_flight_consumer_setup`: ten distinct keys, a
concrete complete interleaving, and its final configuration. -/
theorem single_flight_consumer_setup_witness :
    SingleFlight.ksSample.length = 10
    ∧ (SingleFlight.ksSample.map Prod.fst).Nodup
    ∧ SingleFlight.runSched (SingleFlight.initConfig SingleFlight.ksSample)
        SingleFlight.schedSample = some SingleFlight.cFinSample
    ∧ SingleFlight.allDone SingleFlight.cFinSample = true
    ∧ SingleFlight.cFinSample.1.consumeCalls = 1 :=
  ⟨by decide, by decide, by decide, by decide,
   single_flight_consumer_setup SingleFlight.ksSample SingleFlight.schedSample
     SingleFlight.cFinSample (by decide) (by decide) (by decide) (by decide)⟩
